import Mathlib

/-!
# The type-inference listing of ledwith8051.h

The header ledwith8051.h holds, inside one block comment, the listing written by the
type reconstruction pass (an "Equivalence classes" section and a "Type Variables"
section), followed by the C typedefs declared for the classes.  The listing is embedded
here entry by entry; every entry carries the source line numbers it is read from.

Conventions of the embedding:
* a class name Eq_n is stored as the number n, a type variable name T_n as TVName.T n;
* a literal k_08 is stored as Expr.lit k 8 (value, bit width);
* a type is stored as its syntax tree, e.g. (ptr16 Eq_2) is DataType.ptr16To (DataType.eq 2).
-/

namespace Ledwith8051

/-! ## Syntax of the listing -/

mutual
/-- The type syntax printed in the listing. -/
inductive DataType where
  | void
  | bool
  | byte
  | ui8
  /-- The bare word ptr16 -/
  | ptr16
  /-- A class reference Eq_n -/
  | eq (n : Nat)
  /-- A type variable reference T_n -/
  | tv (n : Nat)
  /-- Type (ptr16 t) -/
  | ptr16To (t : DataType)
  /-- Type (memptr base pointee) -/
  | memptr (base : DataType) (pointee : DataType)
  /-- Type (arr elem length) -/
  | arr (elem : DataType) (length : Nat)
  /-- Type (struct "name"? size? fields), the size printed as four hex digits -/
  | struct (name : Option String) (size : Option Nat) (fields : FieldList)
  /-- Type (segment "name"? fields) -/
  | segment (name : Option String) (fields : FieldList)
  /-- Type (union "name"? alternatives) -/
  | union (name : Option String) (alts : AltList)
  /-- Type (fn ret (params)) -/
  | fn (ret : DataType) (params : TypeList)
/-- Fields (offset type name) of a struct or segment, in printed order. -/
inductive FieldList where
  | nil
  | cons (offset : Nat) (t : DataType) (name : String) (rest : FieldList)
/-- Alternatives (type name) of a union, in printed order. -/
inductive AltList where
  | nil
  | cons (t : DataType) (name : String) (rest : AltList)
/-- Parameter types of a function type, in printed order. -/
inductive TypeList where
  | nil
  | cons (t : DataType) (rest : TypeList)
end

deriving instance DecidableEq for DataType, FieldList, AltList, TypeList

/-- Binary operators that occur in the use-site descriptors. -/
inductive BinOp where
  | add | sub | xor | or | ne
  deriving DecidableEq

mutual
/-- The expression of a use-site descriptor. -/
inductive Expr where
  /-- An identifier: globals, __data, R0_10, fn0003, ... -/
  | id (name : String)
  /-- A literal value_bits, e.g. 0x7F_08 -/
  | lit (value : Nat) (bits : Nat)
  /-- Binary operation l op r -/
  | bin (op : BinOp) (l : Expr) (r : Expr)
  /-- Memory access Mem9[seg:ea:t] -/
  | mem (name : String) (seg : Expr) (ea : Expr) (t : DataType)
  /-- Application f(args) -/
  | app (f : Expr) (args : ExprList)
  /-- The text "signature of f" -/
  | signatureOf (f : String)
/-- Arguments of an application. -/
inductive ExprList where
  | nil
  | cons (e : Expr) (rest : ExprList)
end

deriving instance DecidableEq for Expr, ExprList

/-- The descriptor "(in expr : type)" printed after a type variable's name. -/
structure UseSite where
  expr : Expr
  type : DataType
  deriving DecidableEq

/-- Name of a type variable: globals_t or T_n. -/
inductive TVName where
  | globals_t
  | T (n : Nat)
  deriving DecidableEq

/-- Number of a type variable; globals_t is variable 1. -/
def TVName.num : TVName → Nat
  | .globals_t => 1
  | .T n => n

/-- One entry of the "Type Variables" section: name, use-site descriptor (absent when
nothing is printed after the colon), Class, DataType, OrigDataType (absent when nothing
is printed after the label). -/
structure TypeVariable where
  name : TVName
  site : Option UseSite
  cls : Nat
  dataType : DataType
  origDataType : Option DataType
  deriving DecidableEq

/-- One member line of the "Equivalence classes" section. -/
structure Member where
  name : TVName
  site : UseSite
  deriving DecidableEq

/-- One entry of the "Equivalence classes" section: class, resolved type, member lines. -/
structure EquivalenceClass where
  id : Nat
  dataType : DataType
  members : List Member
  deriving DecidableEq

/-! ## The listing (ledwith8051.h, lines 6-210) -/

/-- The "Type Variables" section, lines 22-210. -/
def typeVariables : List TypeVariable := [
  -- globals_t: (in globals : (ptr16 (struct "Globals")))  (lines 23-26)
  .mk .globals_t (some (.mk (.id "globals") (.ptr16To (.struct (some "Globals") none .nil))))
    1 (.ptr16To (.eq 1)) (some (.ptr16To (.struct (some "Globals") none .nil))),
  -- T_2: (in __data : (ptr16 Eq_2))  (lines 27-30)
  .mk (.T 2) (some (.mk (.id "__data") (.ptr16To (.eq 2))))
    2 (.ptr16To (.eq 2)) (some (.ptr16To (.segment none (.cons 0 (.arr (.tv 47) 128) "a0000" .nil)))),
  -- T_3: (in R0_10 : Eq_3)  (lines 31-34)
  .mk (.T 3) (some (.mk (.id "R0_10") (.eq 3)))
    3 (.eq 3) (some (.union none (.cons .byte "u0" (.cons (.memptr (.tv 2) (.struct none (some 1) (.cons 0 .byte "b0000" .nil))) "u1" .nil)))),
  -- T_4: (in 0x7F_08 : byte)  (lines 35-38)
  .mk (.T 4) (some (.mk (.lit 0x7F 8) .byte))
    3 .byte (some .byte),
  -- T_5: (in 0_08 : byte)  (lines 39-42)
  .mk (.T 5) (some (.mk (.lit 0 8) .byte))
    5 .byte (some .byte),
  -- T_6: (in 0_08 : byte)  (lines 43-46)
  .mk (.T 6) (some (.mk (.lit 0 8) .byte))
    6 .byte (some .byte),
  -- T_7: (in R0_10 + 0_08 : byte)  (lines 47-50)
  .mk (.T 7) (some (.mk (.bin .add (.id "R0_10") (.lit 0 8)) .byte))
    7 .byte (some .byte),
  -- T_8: (in Mem9[__data:R0_10 + 0_08:byte] : byte)  (lines 51-54)
  .mk (.T 8) (some (.mk (.mem "Mem9" (.id "__data") (.bin .add (.id "R0_10") (.lit 0 8)) .byte) .byte))
    5 .byte (some .byte),
  -- T_9: (in 1_08 : byte)  (lines 55-58)
  .mk (.T 9) (some (.mk (.lit 1 8) .byte))
    9 .byte (some (.union none (.cons .byte "u0" (.cons (.memptr (.tv 2) (.struct none (some 1) (.cons 0 .byte "b0000" .nil))) "u1" .nil)))),
  -- T_10: (in R0_10 - 1_08 : byte)  (lines 59-62)
  .mk (.T 10) (some (.mk (.bin .sub (.id "R0_10") (.lit 1 8)) .byte))
    3 (.eq 3) (some (.union none (.cons .byte "u0" (.cons (.memptr (.tv 2) (.struct none (some 1) (.cons 0 .byte "b0000" .nil))) "u1" .nil)))),
  -- T_11: (in 0_08 : byte)  (lines 63-66)
  .mk (.T 11) (some (.mk (.lit 0 8) .byte))
    3 .byte (some .byte),
  -- T_12: (in R0_10 != 0_08 : bool)  (lines 67-70)
  .mk (.T 12) (some (.mk (.bin .ne (.id "R0_10") (.lit 0 8)) .bool))
    12 .bool (some .bool),
  -- T_13: (in fn0003 : ptr16)  (lines 71-74)
  .mk (.T 13) (some (.mk (.id "fn0003") .ptr16))
    13 (.ptr16To (.eq 13)) (some (.ptr16To (.fn (.tv 15) .nil))),
  -- T_14: (in signature of fn0003 : void)  (lines 75-78)
  .mk (.T 14) (some (.mk (.signatureOf "fn0003") .void))
    13 (.ptr16To (.eq 13)) none,
  -- T_15: (in fn0003() : void)  (lines 79-82)
  .mk (.T 15) (some (.mk (.app (.id "fn0003") .nil) .void))
    15 .void (some .void),
  -- T_16: (in fn0003 : ptr16)  (lines 83-86)
  .mk (.T 16) (some (.mk (.id "fn0003") .ptr16))
    13 (.ptr16To (.eq 13)) (some (.ptr16To (.fn (.tv 17) .nil))),
  -- T_17: (in fn0003() : void)  (lines 87-90)
  .mk (.T 17) (some (.mk (.app (.id "fn0003") .nil) .void))
    15 .void (some .void),
  -- T_18: (in R7_21 : byte)  (lines 91-94)
  .mk (.T 18) (some (.mk (.id "R7_21") .byte))
    18 .byte (some .byte),
  -- T_19: (in 0_08 : byte)  (lines 95-98)
  .mk (.T 19) (some (.mk (.lit 0 8) .byte))
    18 .byte (some .byte),
  -- T_20: (in R6_26 : byte)  (lines 99-102)
  .mk (.T 20) (some (.mk (.id "R6_26") .byte))
    20 .byte (some .byte),
  -- T_21: (in 0_08 : byte)  (lines 103-106)
  .mk (.T 21) (some (.mk (.lit 0 8) .byte))
    20 .byte (some .byte),
  -- T_22: (in R4_10 : byte)  (lines 107-110)
  .mk (.T 22) (some (.mk (.id "R4_10") .byte))
    22 .byte (some .byte),
  -- T_23: (in 0x27_08 : byte)  (lines 111-114)
  .mk (.T 23) (some (.mk (.lit 0x27 8) .byte))
    22 .byte (some .byte),
  -- T_24: (in R4_10 != 0x27_08 : bool)  (lines 115-118)
  .mk (.T 24) (some (.mk (.bin .ne (.id "R4_10") (.lit 0x27 8)) .bool))
    24 .bool (some .bool),
  -- T_25: (in 1_08 : byte)  (lines 119-122)
  .mk (.T 25) (some (.mk (.lit 1 8) .byte))
    25 .byte (some .byte),
  -- T_26: (in R4_10 + 1_08 : byte)  (lines 123-126)
  .mk (.T 26) (some (.mk (.bin .add (.id "R4_10") (.lit 1 8)) .byte))
    22 .byte (some .byte),
  -- T_27: (in R5_11 : byte)  (lines 127-130)
  .mk (.T 27) (some (.mk (.id "R5_11") .byte))
    27 .byte (some .byte),
  -- T_28: (in 1_08 : byte)  (lines 131-134)
  .mk (.T 28) (some (.mk (.lit 1 8) .byte))
    28 .byte (some .byte),
  -- T_29: (in R5_11 + 1_08 : byte)  (lines 135-138)
  .mk (.T 29) (some (.mk (.bin .add (.id "R5_11") (.lit 1 8)) .byte))
    27 .byte (some .byte),
  -- T_30: (in 0_08 : byte)  (lines 139-142)
  .mk (.T 30) (some (.mk (.lit 0 8) .byte))
    27 .byte (some .byte),
  -- T_31: (in R5_11 != 0_08 : bool)  (lines 143-146)
  .mk (.T 31) (some (.mk (.bin .ne (.id "R5_11") (.lit 0 8)) .bool))
    31 .bool (some .bool),
  -- T_32: (in 0x10_08 : byte)  (lines 147-150)
  .mk (.T 32) (some (.mk (.lit 0x10 8) .byte))
    27 .byte (some .byte),
  -- T_33: (in R5_11 != 0x10_08 : bool)  (lines 151-154)
  .mk (.T 33) (some (.mk (.bin .ne (.id "R5_11") (.lit 0x10 8)) .bool))
    33 .bool (some .bool),
  -- T_34: (in 1_08 : byte)  (lines 155-158)
  .mk (.T 34) (some (.mk (.lit 1 8) .byte))
    34 .byte (some .byte),
  -- T_35: (in R7_21 + 1_08 : byte)  (lines 159-162)
  .mk (.T 35) (some (.mk (.bin .add (.id "R7_21") (.lit 1 8)) .byte))
    18 .byte (some .byte),
  -- T_36: (in 0_08 : byte)  (lines 163-166)
  .mk (.T 36) (some (.mk (.lit 0 8) .byte))
    18 .byte (some .byte),
  -- T_37: (in R7_21 != 0_08 : bool)  (lines 167-170)
  .mk (.T 37) (some (.mk (.bin .ne (.id "R7_21") (.lit 0 8)) .bool))
    37 .bool (some .bool),
  -- T_38: (in 0xA_08 : byte)  (lines 171-174)
  .mk (.T 38) (some (.mk (.lit 0xA 8) .byte))
    38 .byte (some .byte),
  -- T_39: (in R7_21 ^ 0xA_08 : byte)  (lines 175-178)
  .mk (.T 39) (some (.mk (.bin .xor (.id "R7_21") (.lit 0xA 8)) .byte))
    39 .ui8 (some .ui8),
  -- T_40: (in R7_21 ^ 0xA_08 | R6_26 : byte)  (lines 179-182)
  .mk (.T 40) (some (.mk (.bin .or (.bin .xor (.id "R7_21") (.lit 0xA 8)) (.id "R6_26")) .byte))
    40 .byte (some .byte),
  -- T_41: (in 0_08 : byte)  (lines 183-186)
  .mk (.T 41) (some (.mk (.lit 0 8) .byte))
    40 .byte (some .byte),
  -- T_42: (in (R7_21 ^ 0xA_08 | R6_26) != 0_08 : bool)  (lines 187-190)
  .mk (.T 42) (some (.mk (.bin .ne (.bin .or (.bin .xor (.id "R7_21") (.lit 0xA 8)) (.id "R6_26")) (.lit 0 8)) .bool))
    42 .bool (some .bool),
  -- T_43: (in 1_08 : byte)  (lines 191-194)
  .mk (.T 43) (some (.mk (.lit 1 8) .byte))
    43 .byte (some .byte),
  -- T_44: (in R6_26 + 1_08 : byte)  (lines 195-198)
  .mk (.T 44) (some (.mk (.bin .add (.id "R6_26") (.lit 1 8)) .byte))
    20 .byte (some .byte),
  -- T_45: (in 0_08 : byte)  (lines 199-202)
  .mk (.T 45) (some (.mk (.lit 0 8) .byte))
    27 .byte (some .byte),
  -- T_46: (in 0_08 : byte)  (lines 203-206)
  .mk (.T 46) (some (.mk (.lit 0 8) .byte))
    22 .byte (some .byte),
  -- T_47:  (lines 207-210)
  .mk (.T 47) none
    47 .byte (some (.struct none (some 1) (.cons 0 (.tv 8) "t0000" .nil)))]

/-- The "Equivalence classes" section, lines 6-21. -/
def equivalenceClasses : List EquivalenceClass := [
  -- Eq_1: (struct "Globals")  (lines 7-8)
  .mk 1 (.struct (some "Globals") none .nil) [
    .mk .globals_t (.mk (.id "globals") (.ptr16To (.struct (some "Globals") none .nil)))],
  -- Eq_2: (segment "Eq_2" (0 (arr byte 128) a0000))  (lines 9-10)
  .mk 2 (.segment (some "Eq_2") (.cons 0 (.arr .byte 128) "a0000" .nil)) [
    .mk (.T 2) (.mk (.id "__data") (.ptr16To (.eq 2)))],
  -- Eq_3: (union "Eq_3" (byte u0) ((memptr (ptr16 Eq_2) byte) u1))  (lines 11-15)
  .mk 3 (.union (some "Eq_3") (.cons .byte "u0" (.cons (.memptr (.ptr16To (.eq 2)) .byte) "u1" .nil))) [
    .mk (.T 3) (.mk (.id "R0_10") (.eq 3)),
    .mk (.T 4) (.mk (.lit 0x7F 8) .byte),
    .mk (.T 10) (.mk (.bin .sub (.id "R0_10") (.lit 1 8)) .byte),
    .mk (.T 11) (.mk (.lit 0 8) .byte)],
  -- Eq_9: (union "Eq_9" (byte u0) ((memptr (ptr16 Eq_2) byte) u1))  (lines 16-17)
  .mk 9 (.union (some "Eq_9") (.cons .byte "u0" (.cons (.memptr (.ptr16To (.eq 2)) .byte) "u1" .nil))) [
    .mk (.T 9) (.mk (.lit 1 8) .byte)],
  -- Eq_13: (fn void ())  (lines 18-21)
  .mk 13 (.fn .void .nil) [
    .mk (.T 13) (.mk (.id "fn0003") .ptr16),
    .mk (.T 14) (.mk (.signatureOf "fn0003") .void),
    .mk (.T 16) (.mk (.id "fn0003") .ptr16)]]

/-! ## The declarations (ledwith8051.h, lines 212-229) -/

/-- A C type as written in the typedefs. -/
inductive CType where
  | void
  | byte
  /-- The member pointer "pointee Eq_owner::*" -/
  | memberPtr (pointee : CType) (owner : Nat)
  deriving DecidableEq

/-- One member line of a struct or union body: "type name[arrayLength]; // offset". -/
structure CField where
  type : CType
  name : String
  arrayLength : Option Nat
  offset : Option Nat
  deriving DecidableEq

/-- One typedef; the declared name Eq_n is stored as the number n. -/
inductive CDecl where
  /-- The text "typedef struct tag { fields } Eq_n;" -/
  | structDef (tag : String) (fields : List CField) (declared : Nat)
  /-- The text "typedef union tag { fields } Eq_n;" -/
  | unionDef (tag : String) (fields : List CField) (declared : Nat)
  /-- The text "typedef ret (Eq_n)(params);" -/
  | fnDef (ret : CType) (declared : Nat) (params : List CType)
  deriving DecidableEq

/-- The class a typedef declares. -/
def CDecl.declared : CDecl → Nat
  | .structDef _ _ n => n
  | .unionDef _ _ n => n
  | .fnDef _ n _ => n

/-- The typedefs after the listing, lines 212-229. -/
def typedefs : List CDecl := [
  -- typedef struct Globals { } Eq_1;  (lines 212-213)
  .structDef "Globals" [] 1,
  -- typedef struct Eq_2 { byte a0000[128]; // 0 } Eq_2;  (lines 215-217)
  .structDef "Eq_2" [.mk .byte "a0000" (some 128) (some 0)] 2,
  -- typedef union Eq_3 { byte u0; byte Eq_2::* u1; } Eq_3;  (lines 219-222)
  .unionDef "Eq_3" [.mk .byte "u0" none none, .mk (.memberPtr .byte 2) "u1" none none] 3,
  -- typedef union Eq_9 { byte u0; byte Eq_2::* u1; } Eq_9;  (lines 224-227)
  .unionDef "Eq_9" [.mk .byte "u0" none none, .mk (.memberPtr .byte 2) "u1" none none] 9,
  -- typedef void (Eq_13)();  (line 229)
  .fnDef .void 13 []]

/-! ## Reading the listing -/

/-- The expression of an entry's use-site descriptor, when it has one. -/
def TypeVariable.expr? (v : TypeVariable) : Option Expr :=
  v.site.map (fun s => s.expr)

/-- The entry of the "Type Variables" section with the given name. -/
def lookup (n : TVName) : Option TypeVariable :=
  typeVariables.find? (fun v => v.name == n)

/-- The entries whose Class line names Eq_c, in listing order. -/
def membersOf (c : Nat) : List TypeVariable :=
  typeVariables.filter (fun v => v.cls == c)

/-- The resolved type printed for Eq_c in the "Equivalence classes" section. -/
def classType (c : Nat) : Option DataType :=
  (equivalenceClasses.find? (fun e => e.id == c)).map (fun e => e.dataType)

/-- The typedef that declares Eq_c. -/
def typedefFor (c : Nat) : Option CDecl :=
  typedefs.find? (fun d => d.declared == c)

mutual
/-- The classes Eq_n named inside a type. -/
def DataType.eqRefs : DataType → List Nat
  | .eq n => [n]
  | .ptr16To t => t.eqRefs
  | .memptr b p => b.eqRefs ++ p.eqRefs
  | .arr e _ => e.eqRefs
  | .struct _ _ fs => fs.eqRefs
  | .segment _ fs => fs.eqRefs
  | .union _ alts => alts.eqRefs
  | .fn r ps => r.eqRefs ++ ps.eqRefs
  | _ => []
/-- The classes named inside the fields of a struct or segment. -/
def FieldList.eqRefs : FieldList → List Nat
  | .nil => []
  | .cons _ t _ rest => t.eqRefs ++ rest.eqRefs
/-- The classes named inside the alternatives of a union. -/
def AltList.eqRefs : AltList → List Nat
  | .nil => []
  | .cons t _ rest => t.eqRefs ++ rest.eqRefs
/-- The classes named inside a parameter list. -/
def TypeList.eqRefs : TypeList → List Nat
  | .nil => []
  | .cons t rest => t.eqRefs ++ rest.eqRefs
end

/-- Every type printed in the listing: for each class its resolved type and the types
of its member lines, for each variable the type of its descriptor, its DataType and its
OrigDataType. -/
def listedTypes : List DataType :=
  equivalenceClasses.map (fun e => e.dataType)
    ++ (equivalenceClasses.map (fun e => e.members.map (fun m => m.site.type))).flatten
    ++ typeVariables.filterMap (fun v => v.site.map (fun s => s.type))
    ++ typeVariables.map (fun v => v.dataType)
    ++ typeVariables.filterMap (fun v => v.origDataType)

/-- Every class named in the listing: on a Class line, as the head of an entry of the
"Equivalence classes" section, or inside a printed type. -/
def namedClasses : List Nat :=
  typeVariables.map (fun v => v.cls)
    ++ equivalenceClasses.map (fun e => e.id)
    ++ (listedTypes.map DataType.eqRefs).flatten

/-- The storage location x of a use site "x + k" or "x - k" with k a literal. -/
def storageOfOffset : Expr → Option String
  | .bin .add (.id x) (.lit _ _) => some x
  | .bin .sub (.id x) (.lit _ _) => some x
  | _ => none

/-- The entry whose use site is the storage location x itself. -/
def variableOfStorage (x : String) : Option TypeVariable :=
  typeVariables.find? (fun v => v.expr? == some (.id x))

/-- Whether a use site is a bitwise operation (the listing has only ^ and |). -/
def isBitwise : Expr → Bool
  | .bin .xor _ _ => true
  | .bin .or _ _ => true
  | _ => false

/-- The two operands of a use site "l != k" with k a literal. -/
def comparisonOperands : Expr → Option (Expr × Expr)
  | .bin .ne l (.lit k b) => some (l, .lit k b)
  | _ => none

/-- The entries whose use site is the expression e, in listing order. -/
def variablesOf (e : Expr) : List TypeVariable :=
  typeVariables.filter (fun v => v.expr? == some e)

/-- The entry of a comparison's literal operand: the variable numbered just before the
comparison, provided its use site is that literal. -/
def literalOperandOf (v : TypeVariable) (k : Expr) : Option TypeVariable :=
  typeVariables.find? (fun w => w.name.num + 1 == v.name.num && w.expr? == some k)

/-- Whether a union's alternatives include a plain byte. -/
def AltList.hasByte : AltList → Bool
  | .nil => false
  | .cons .byte _ _ => true
  | .cons _ _ rest => rest.hasByte

/-- Whether a union's alternatives include a member pointer. -/
def AltList.hasPointer : AltList → Bool
  | .nil => false
  | .cons (.memptr _ _) _ _ => true
  | .cons _ _ rest => rest.hasPointer

/-- Whether a first-inferred type records both a byte use and a pointer use of the
same storage. -/
def DataType.isByteAndPointer : DataType → Bool
  | .union _ alts => alts.hasByte && alts.hasPointer
  | _ => false

/-- Whether some member of Eq_c was first inferred both as a byte and as a pointer. -/
def hasByteAndPointerEvidence (c : Nat) : Bool :=
  (membersOf c).any (fun v =>
    match v.origDataType with
    | some t => t.isByteAndPointer
    | none => false)

/-- The alternatives of a union type. -/
def DataType.unionAlts : DataType → Option AltList
  | .union _ alts => some alts
  | _ => none

/-- The member lines of a union typedef. -/
def CDecl.unionFields : CDecl → Option (List CField)
  | .unionDef _ fs _ => some fs
  | _ => none

/-- Whether a type is a struct, segment, union or function type. -/
def DataType.isAggregate : DataType → Bool
  | .struct _ _ _ => true
  | .segment _ _ => true
  | .union _ _ => true
  | .fn _ _ => true
  | _ => false

/-! ## The typedef a resolved type calls for

The declaration a class's resolved type calls for: the kind of the type (a segment is
declared as a struct), its name as tag, and its fields in order, each with its name, its
type and, for a struct or segment, its offset. -/

/-- The C spelling of a field type: void, byte, and "pointee Eq_n::*" for a member
pointer based on (ptr16 Eq_n). -/
def expectedCType : DataType → Option CType
  | .void => some .void
  | .byte => some .byte
  | .memptr (.ptr16To (.eq n)) p => (expectedCType p).map (fun c => .memberPtr c n)
  | _ => none

/-- The member line of a struct field at an offset; an array field carries its length. -/
def expectedField (offset : Nat) (t : DataType) (name : String) : Option CField :=
  match t with
  | .arr e n => (expectedCType e).map (fun c => .mk c name (some n) (some offset))
  | t => (expectedCType t).map (fun c => .mk c name none (some offset))

/-- The member lines of a struct or segment, in field order. -/
def expectedFields : FieldList → Option (List CField)
  | .nil => some []
  | .cons off t name rest =>
    match expectedField off t name, expectedFields rest with
    | some f, some fs => some (f :: fs)
    | _, _ => none

/-- The member lines of a union, in alternative order; a union member has no offset. -/
def expectedAlts : AltList → Option (List CField)
  | .nil => some []
  | .cons t name rest =>
    match expectedCType t, expectedAlts rest with
    | some c, some fs => some (.mk c name none none :: fs)
    | _, _ => none

/-- The parameter types of a function typedef. -/
def expectedParams : TypeList → Option (List CType)
  | .nil => some []
  | .cons t rest =>
    match expectedCType t, expectedParams rest with
    | some c, some cs => some (c :: cs)
    | _, _ => none

/-- The typedef called for by the resolved type of Eq_c; none for a type that is not a
named struct, segment or union or a function type. -/
def expectedTypedef (c : Nat) : DataType → Option CDecl
  | .struct (some tag) _ fs => (expectedFields fs).map (fun l => .structDef tag l c)
  | .segment (some tag) fs => (expectedFields fs).map (fun l => .structDef tag l c)
  | .union (some tag) alts => (expectedAlts alts).map (fun l => .unionDef tag l c)
  | .fn r ps =>
    match expectedCType r, expectedParams ps with
    | some ret, some l => some (.fnDef ret c l)
    | _, _ => none
  | _ => none

/-! ## Theorems -/

set_option maxRecDepth 100000

/-- C1: the 47 type variables (globals_t, then T_2 ... T_47) have one entry each in the
Type Variables section, so each names one Class; for each class listed in the Equivalence
classes section (Eq_1, Eq_2, Eq_3, Eq_9, Eq_13) the member lines are exactly the variables
whose entry names that class, with the same descriptors; and no variable is listed under
two classes. -/
theorem C1_listing_is_partition :
    typeVariables.map (fun v => v.name)
        = TVName.globals_t :: (List.range' 2 46).map TVName.T
    ∧ typeVariables.length = 47
    ∧ (typeVariables.map (fun v => v.name)).Nodup
    ∧ (∀ v ∈ typeVariables, ∀ w ∈ typeVariables, v.name = w.name → v.cls = w.cls)
    ∧ equivalenceClasses.map (fun e => e.id) = [1, 2, 3, 9, 13]
    ∧ (∀ e ∈ equivalenceClasses,
        e.members.map (fun m => m.name) = (membersOf e.id).map (fun v => v.name)
        ∧ e.members.map (fun m => some m.site) = (membersOf e.id).map (fun v => v.site))
    ∧ ((equivalenceClasses.map (fun e => e.members.map (fun m => m.name))).flatten).Nodup := by
  refine ⟨by decide, by decide, by decide, by decide, by decide, by decide, by decide⟩

/-- C2: every class named in the listing has the number of its lowest-numbered member
(globals_t counted as variable 1); in particular Eq_3 = {T_3, T_4, T_10, T_11},
Eq_5 = {T_5, T_8} and Eq_27 = {T_27, T_29, T_30, T_32, T_45}. -/
theorem C2_class_number_is_least_member :
    (∀ c ∈ namedClasses, ((membersOf c).map (fun v => v.name.num)).min? = some c)
    ∧ (membersOf 3).map (fun v => v.name) = [.T 3, .T 4, .T 10, .T 11]
    ∧ (membersOf 5).map (fun v => v.name) = [.T 5, .T 8]
    ∧ (membersOf 27).map (fun v => v.name) = [.T 27, .T 29, .T 30, .T 32, .T 45] := by
  refine ⟨by decide, by decide, by decide, by decide⟩

/-- C4: the classes with a member first inferred both as a byte and as a pointer are
Eq_3 (the class of R0_10) and Eq_9; each is resolved to a union of exactly the two
alternatives (byte u0) and ((memptr (ptr16 Eq_2) byte) u1), in this order, and the union
typedef declared for it has exactly the two members "byte u0;" and "byte Eq_2::* u1;". -/
theorem C4_byte_and_pointer_classes_are_unions :
    (∀ c ∈ namedClasses, hasByteAndPointerEvidence c = true ↔ c = 3 ∨ c = 9)
    ∧ hasByteAndPointerEvidence 3 = true ∧ hasByteAndPointerEvidence 9 = true
    ∧ (variableOfStorage "R0_10").map (fun v => v.cls) = some 3
    ∧ (∀ c ∈ namedClasses, hasByteAndPointerEvidence c = true →
        (classType c).bind DataType.unionAlts
          = some (.cons .byte "u0"
              (.cons (.memptr (.ptr16To (.eq 2)) .byte) "u1" .nil))
        ∧ (typedefFor c).bind CDecl.unionFields
          = some [.mk .byte "u0" none none, .mk (.memberPtr .byte 2) "u1" none none]) := by
  refine ⟨by decide, by decide, by decide, by decide, by decide⟩

/-- C5 as stated fails: T_7 (use site R0_10 + 0_08) names Eq_7, while the variable of
R0_10, T_3, names Eq_3. -/
theorem C5_counterexample_T7 :
    ¬ (∀ v ∈ typeVariables, ∀ x ∈ v.expr?.bind storageOfOffset,
        (variableOfStorage x).map (fun w => w.cls) = some v.cls) := by
  decide

/-- C5 (amended): the variables whose use site is a storage location plus or minus a
literal are T_7, T_10, T_26, T_29, T_35 and T_44; each of them other than T_7 names the
Class of the variable of its storage location; T_7 (R0_10 + 0_08, the address of the
access Mem9[__data:R0_10 + 0_08:byte] of T_8) names a class of its own, Eq_7, while
R0_10 (T_3) names Eq_3. -/
theorem C5_offset_result_in_class_of_storage :
    (typeVariables.filter (fun v => (v.expr?.bind storageOfOffset).isSome)).map
        (fun v => v.name) = [.T 7, .T 10, .T 26, .T 29, .T 35, .T 44]
    ∧ (∀ v ∈ typeVariables, v.name ≠ .T 7 → ∀ x ∈ v.expr?.bind storageOfOffset,
        (variableOfStorage x).map (fun w => w.cls) = some v.cls)
    ∧ (membersOf 7).map (fun v => v.name) = [.T 7]
    ∧ (lookup (.T 8)).bind TypeVariable.expr?
        = some (.mem "Mem9" (.id "__data") (.bin .add (.id "R0_10") (.lit 0 8)) .byte)
    ∧ (variableOfStorage "R0_10").map (fun v => (v.name, v.cls)) = some (.T 3, 3) := by
  refine ⟨by decide, by decide, by decide, by decide, by decide⟩

/-- C6 as stated fails: T_40 (use site R7_21 ^ 0xA_08 | R6_26) has DataType byte and
OrigDataType byte, not ui8. -/
theorem C6_counterexample_T40 :
    ¬ (∀ v ∈ typeVariables, ∀ e ∈ v.expr?, isBitwise e = true →
        v.dataType = .ui8 ∧ v.origDataType = some .ui8) := by
  decide

/-- C6 (amended): the variables whose use site is a bitwise operation are T_39 and
T_40; for T_39 (R7_21 ^ 0xA_08) the DataType and the OrigDataType are ui8; for T_40
(R7_21 ^ 0xA_08 | R6_26) both are byte. -/
theorem C6_bitwise_types :
    (typeVariables.filter (fun v => (v.expr?.map isBitwise) == some true)).map
        (fun v => v.name) = [.T 39, .T 40]
    ∧ (∀ v ∈ typeVariables, v.name ≠ .T 40 → ∀ e ∈ v.expr?, isBitwise e = true →
        v.dataType = .ui8 ∧ v.origDataType = some .ui8)
    ∧ (lookup (.T 39)).bind TypeVariable.expr?
        = some (.bin .xor (.id "R7_21") (.lit 0xA 8))
    ∧ (lookup (.T 40)).map (fun v => (v.expr?, v.dataType, v.origDataType))
        = some (some (.bin .or (.bin .xor (.id "R7_21") (.lit 0xA 8)) (.id "R6_26")),
            .byte, some .byte) := by
  refine ⟨by decide, by decide, by decide, by decide⟩

/-- C7 as stated fails: not every entry has both a use-site descriptor and an
OrigDataType (T_47 has no descriptor, T_14 has an empty OrigDataType). -/
theorem C7_counterexample_T14_T47 :
    ¬ (∀ v ∈ typeVariables, v.site.isSome = true ∧ v.origDataType.isSome = true) := by
  decide

/-- C7 (amended): each of the 47 entries carries a Class and a DataType; every entry
except T_47 carries a use-site descriptor, and every entry except T_14 (signature of
fn0003) carries a non-empty OrigDataType. -/
theorem C7_entry_fields :
    typeVariables.length = 47
    ∧ (∀ v ∈ typeVariables, (v.site = none ↔ v.name = .T 47)
        ∧ (v.origDataType = none ↔ v.name = .T 14))
    ∧ (lookup (.T 14)).map (fun v => v.site) = some (some (.mk (.signatureOf "fn0003") .void)) := by
  refine ⟨by decide, by decide, by decide⟩

/-- C8: the typedefs are, in order, exactly the typedef called for by the resolved type
of each class of the Equivalence classes section (Eq_1, Eq_2, Eq_3, Eq_9, Eq_13: each a
struct, segment, union or function type), in ascending class order; no DataType of a
variable is itself a struct, segment, union or function type; every class named inside a
type of the listing is declared; and struct Eq_2 has the single member
"byte a0000[128]; // 0". -/
theorem C8_typedefs_follow_resolved_types :
    typedefs.map some = equivalenceClasses.map (fun e => expectedTypedef e.id e.dataType)
    ∧ typedefs.map CDecl.declared = [1, 2, 3, 9, 13]
    ∧ (typedefs.map CDecl.declared).Pairwise (fun a b => a < b)
    ∧ (∀ e ∈ equivalenceClasses, e.dataType.isAggregate = true)
    ∧ (∀ v ∈ typeVariables, v.dataType.isAggregate = false)
    ∧ (∀ t ∈ listedTypes, ∀ c ∈ t.eqRefs, c ∈ typedefs.map CDecl.declared)
    ∧ classType 2 = some (.segment (some "Eq_2") (.cons 0 (.arr .byte 128) "a0000" .nil))
    ∧ typedefFor 2 = some (.structDef "Eq_2" [.mk .byte "a0000" (some 128) (some 0)] 2) := by
  refine ⟨by decide, by decide, by decide, by decide, by decide, by decide, by decide,
    by decide⟩

/-- C9 as stated fails: T_3 and T_4 both name Eq_3, with DataType Eq_3 and byte. -/
theorem C9_counterexample_T3_T4 :
    ¬ (∀ v ∈ typeVariables, ∀ w ∈ typeVariables, v.cls = w.cls → v.dataType = w.dataType) := by
  decide

/-- C9 (amended): each class of the Equivalence classes section is listed once, with
one resolved type; two variables that name the same Class other than Eq_3 have the same
DataType (so the members T_13, T_14, T_16 of Eq_13); in Eq_3 the members T_3 and T_10
have DataType Eq_3 and the literal members T_4 and T_11 have DataType byte. -/
theorem C9_members_share_data_type :
    (equivalenceClasses.map (fun e => e.id)).Nodup
    ∧ (∀ v ∈ typeVariables, ∀ w ∈ typeVariables, v.cls = w.cls → v.cls ≠ 3 →
        v.dataType = w.dataType)
    ∧ (membersOf 13).map (fun v => (v.name, v.dataType))
        = [(.T 13, .ptr16To (.eq 13)), (.T 14, .ptr16To (.eq 13)), (.T 16, .ptr16To (.eq 13))]
    ∧ (membersOf 3).map (fun v => (v.name, v.dataType))
        = [(.T 3, .eq 3), (.T 4, .byte), (.T 10, .eq 3), (.T 11, .byte)] := by
  refine ⟨by decide, by decide, by decide, by decide⟩

/-- C10: the variables whose use site is a comparison "l != k" against a literal are
T_12, T_24, T_31, T_33, T_37 and T_42; for each the DataType and the OrigDataType are
bool, and the variable of the left operand l (one entry has that use site) and the
variable of the literal k (the entry numbered just before the comparison) name one
Class. -/
theorem C10_comparisons_are_bool :
    (typeVariables.filter (fun v => (v.expr?.bind comparisonOperands).isSome)).map
        (fun v => v.name) = [.T 12, .T 24, .T 31, .T 33, .T 37, .T 42]
    ∧ (∀ v ∈ typeVariables, ∀ p ∈ v.expr?.bind comparisonOperands,
        v.dataType = .bool ∧ v.origDataType = some .bool
        ∧ (variablesOf p.1).length = 1
        ∧ (literalOperandOf v p.2).isSome = true
        ∧ (variablesOf p.1).map (fun a => a.cls)
            = ((literalOperandOf v p.2).map (fun b => b.cls)).toList) := by
  refine ⟨by decide, by decide⟩

end Ledwith8051
